import Mathlib

set_option maxRecDepth 16384

/-!
# Verification of the PraisonAI-WP command adapter (`WPClient`)

A shallow embedding of the command-to-shell translation layer of
`src/praisonaiwp/core/wp_client.py`: option rendering and single-quote
escaping (`WPClient.wp`), the execution primitive and its text-pattern
error classifier (`WPClient._execute_wp`), and the entity operations the
specification singles out (`create_post`, `update_post`, `post_exists`,
`set_post_categories`, `get_post`, `get_default_user`, `list_categories`,
`get_category_by_name`, `set_config_param`).

Python strings are embedded as `List Char`; the remote SSH executor and
`json.loads` are the two external collaborators and enter the model as
function-valued fields of the client context.
-/

namespace PraisonWP

/-- Python strings, embedded as lists of characters. -/
abbrev Str := List Char

/-- Python's substring test `needle in hay`. -/
def isSubstr (needle : Str) : Str → Bool
  | [] => needle.isEmpty
  | c :: rest => needle.isPrefixOf (c :: rest) || isSubstr needle rest

/-- Python's `str.lower()` (ASCII case folding, which covers every string the
client matches against). -/
def lowerStr (s : Str) : Str := s.map Char.toLower

/-- The whitespace characters Python's `str.strip()` removes. -/
def isPySpace (c : Char) : Bool :=
  c = ' ' || c = '\t' || c = '\n' || c = '\r' || c = '\x0b' || c = '\x0c'

/-- Python's `str.strip()`: drop leading and trailing whitespace. -/
def pyStrip (s : Str) : Str :=
  ((s.dropWhile isPySpace).reverse.dropWhile isPySpace).reverse

/-- Python's `sep.join(parts)`. -/
def joinSep (sep : Str) (parts : List Str) : Str := List.intercalate sep parts

/-- Embeds `key.replace('_', '-')` from `WPClient.wp` (WP-CLI flag convention). -/
def hyphenateKey (key : Str) : Str := key.map (fun c => if c = '_' then '-' else c)

/-- Embeds `value.replace("'", "'\\''")` from `WPClient.wp` / `create_post` /
`update_post` / `set_config_param`: every single quote becomes the four
characters quote, backslash, quote, quote. -/
def escapeSingleQuotes : Str → Str
  | [] => []
  | c :: rest =>
      if c = '\'' then '\'' :: '\\' :: '\'' :: '\'' :: escapeSingleQuotes rest
      else c :: escapeSingleQuotes rest

/-- Embeds `search.replace('"', '\\"')` from `WPClient.list_categories`. -/
def escapeDoubleQuotes : Str → Str
  | [] => []
  | c :: rest =>
      if c = '"' then '\\' :: '"' :: escapeDoubleQuotes rest
      else c :: escapeDoubleQuotes rest

/-- A Python value passed as a keyword argument: the call sites of
`WPClient.wp` hand it strings, integers, booleans or `None`. -/
inductive PyVal where
  | str (s : Str)
  | int (n : Int)
  | bool (b : Bool)
  | none
  deriving DecidableEq

/-- Python's decimal rendering of an integer (`str(n)`), used by `f"{post_id}"`
and `','.join(map(str, category_ids))`. -/
def intStr (n : Int) : Str := (toString n).data

/-- Python's `str(value)` on the values `PyVal` covers. -/
def pyStrVal : PyVal → Str
  | .str s => s
  | .int n => intStr n
  | .bool true => "True".data
  | .bool false => "False".data
  | .none => "None".data

/-- A JSON value as `json.loads` returns it (floats do not occur in the
scenarios the claims exercise, so numbers are integers). -/
inductive Json where
  | null
  | bool (b : Bool)
  | num (n : Int)
  | str (s : Str)
  | arr (elems : List Json)
  | obj (pairs : List (Str × Json))

mutual

/-- Python's `repr` of the object `json.loads` produced: `None`/`True`/`False`,
decimal numbers, single-quoted strings, `[..]` lists and `\x7b'k': v\x7d`
dicts (string escaping inside `repr` is not modelled: the strings the claims
exercise contain no quotes or backslashes). -/
def jsonRepr : Json → Str
  | .null => "None".data
  | .bool true => "True".data
  | .bool false => "False".data
  | .num n => intStr n
  | .str s => '\'' :: s ++ ['\'']
  | .arr xs => '\x5b' :: jsonReprList xs ++ ['\x5d']
  | .obj ps => '\x7b' :: jsonReprPairs ps ++ ['\x7d']

/-- The comma-separated elements of a Python list `repr`. -/
def jsonReprList : List Json → Str
  | [] => []
  | [x] => jsonRepr x
  | x :: y :: rest => jsonRepr x ++ ", ".data ++ jsonReprList (y :: rest)

/-- The comma-separated `'key': value` entries of a Python dict `repr`. -/
def jsonReprPairs : List (Str × Json) → Str
  | [] => []
  | [p] => '\'' :: p.1 ++ "': ".data ++ jsonRepr p.2
  | p :: q :: rest =>
      '\'' :: p.1 ++ "': ".data ++ jsonRepr p.2 ++ ", ".data ++ jsonReprPairs (q :: rest)

end

/-- Python's `str()` of the object `json.loads` produced: a string is itself,
anything else renders as its `repr`. -/
def pyStrJson : Json → Str
  | .str s => s
  | j => jsonRepr j

/-- Python truthiness of the object `json.loads` produced. -/
def pyTruthyJson : Json → Bool
  | .null => false
  | .bool b => b
  | .num n => n != 0
  | .str s => !s.isEmpty
  | .arr xs => !xs.isEmpty
  | .obj ps => !ps.isEmpty

/-- Embeds `cat['name']`: dictionary lookup (first matching key). -/
def jsonGet (j : Json) (key : Str) : Option Json :=
  match j with
  | .obj ps => (ps.find? (fun p => p.1 == key)).map (·.2)
  | _ => Option.none

/-- Modelled from the spec: one pass of POSIX shell word unquoting, the
`unquote` of the specification's escaping round-trip property. The `Bool`
says whether the scanner is inside a single-quoted region: outside, a
backslash escapes the next character and a quote toggles the region; inside,
every character but the closing quote is literal. `none` means the word is
malformed (unterminated quote or trailing backslash). -/
def unquoteAux : Bool → Str → Option Str
  | inq, [] => if inq then none else some []
  | inq, c :: rest =>
      if c = '\'' then unquoteAux (!inq) rest
      else if inq then (unquoteAux true rest).map (c :: ·)
      else if c = '\\' then
        match rest with
        | [] => none
        | d :: rest2 => (unquoteAux false rest2).map (d :: ·)
      else (unquoteAux false rest).map (c :: ·)

/-- Modelled from the spec: POSIX unquoting of a whole word, starting outside
any quoted region. -/
def posixUnquote (s : Str) : Option Str := unquoteAux false s

/-- What one call of the remote executor collaborator (`self.ssh.execute`)
does: return the two text streams, or raise a transport exception. -/
inductive ExecResult where
  | ok (stdout stderr : Str)
  | exn (msg : Str)
  deriving DecidableEq

/-- The typed error of `praisonaiwp.utils.exceptions.WPCLIError`; `str(e)` is
its message. -/
structure WPCLIError where
  msg : Str
  deriving DecidableEq

/-- The exceptions the embedded methods can raise: a `WPCLIError`, a
`ValueError` (`int()` on a non-numeric string), a JSON decode error
(`json.loads`, a `ValueError` subclass), or the `TypeError`/`KeyError`/
`AttributeError` of dynamic operations on unexpected shapes. -/
inductive PyExc where
  | wpcli (e : WPCLIError)
  | valueError
  | jsonDecodeError
  | typeError
  | keyError
  | attributeError
  deriving DecidableEq

/-- A `WPClient` instance together with its two external collaborators:
`wp_path`, `php_bin` and `wp_cli` are the constructor fields; `ssh_execute`
is the remote executor; `json_loads` is the standard JSON decoder (`none`
models `json.JSONDecodeError`). -/
structure Ctx where
  wp_path : Str
  php_bin : Str
  wp_cli : Str
  ssh_execute : Str → ExecResult
  json_loads : Str → Option Json

/-- Embeds the line `f"cd {self.wp_path} && {self.php_bin} {self.wp_cli} {command}"` from
`WPClient._execute_wp`. -/
def fullCmd (wp_path php_bin wp_cli command : Str) : Str :=
  "cd ".data ++ wp_path ++ " && ".data ++ php_bin ++ " ".data ++ wp_cli
    ++ " ".data ++ command

/-- The message of the "command not found" guidance error of
`WPClient._execute_wp`. -/
def cmdNotFoundMsg (wp_cli php_bin stderr : Str) : Str :=
  "WP-CLI command not found\nError: ".data ++ stderr
    ++ "\n\nPlease verify:\n1. WP-CLI is installed at: ".data ++ wp_cli
    ++ "\n2. PHP binary is correct: ".data ++ php_bin

/-- The message of the "no such file or directory" guidance error of
`WPClient._execute_wp`. -/
def fileNotFoundMsg (wp_path wp_cli stderr : Str) : Str :=
  "File or directory not found\nError: ".data ++ stderr
    ++ "\n\nPlease verify:\n1. WordPress path: ".data ++ wp_path
    ++ "\n2. WP-CLI path: ".data ++ wp_cli

/-- The message of the generic `WP-CLI error:` failure of
`WPClient._execute_wp`. -/
def wpErrorMsg (stderr : Str) : Str := "WP-CLI error: ".data ++ stderr

/-- The message wrapping a transport exception in `WPClient._execute_wp`. -/
def execFailMsg (m : Str) : Str := "Failed to execute WP-CLI command: ".data ++ m

/-- Embeds `WPClient._execute_wp`: build the full shell line, run it over SSH,
re-raise transport failures as `WPCLIError`, classify non-empty stderr by the
ordered substring patterns, and return the stripped stdout on success. -/
def execute_wp (ctx : Ctx) (command : Str) : Except WPCLIError Str :=
  match ctx.ssh_execute (fullCmd ctx.wp_path ctx.php_bin ctx.wp_cli command) with
  | .exn e => .error ⟨execFailMsg e⟩
  | .ok stdout stderr =>
      if stderr.isEmpty then .ok (pyStrip stdout)
      else
        let error_lower := lowerStr stderr
        if isSubstr "command not found".data error_lower then
          .error ⟨cmdNotFoundMsg ctx.wp_cli ctx.php_bin stderr⟩
        else if isSubstr "no such file or directory".data error_lower then
          .error ⟨fileNotFoundMsg ctx.wp_path ctx.wp_cli stderr⟩
        else if isSubstr "error:".data error_lower then
          .error ⟨wpErrorMsg stderr⟩
        else .ok (pyStrip stdout)

/-- Whether `WPClient._execute_wp` calls `logger.error` for this stderr: only
in the `error:` branch, and not when the lower-cased stderr contains
`term doesn't exist`. -/
def logsWpError (stderr : Str) : Bool :=
  !stderr.isEmpty
    && !isSubstr "command not found".data (lowerStr stderr)
    && !isSubstr "no such file or directory".data (lowerStr stderr)
    && isSubstr "error:".data (lowerStr stderr)
    && !isSubstr "term doesn't exist".data (lowerStr stderr)

/-- Modelled from the spec: the claim's (and §4.1.3's) logging rule, whose
suppression test is a case-sensitive exact-phrase check on the stderr itself
rather than on its lower-casing. -/
def specLoggedError (stderr : Str) : Bool :=
  !stderr.isEmpty
    && !isSubstr "command not found".data (lowerStr stderr)
    && !isSubstr "no such file or directory".data (lowerStr stderr)
    && isSubstr "error:".data (lowerStr stderr)
    && !isSubstr "term doesn't exist".data stderr

/-- One iteration of the kwargs loop of `WPClient.wp`: the token(s) an option
contributes to the command line. -/
def renderOption (key : Str) (value : PyVal) : List Str :=
  match value with
  | .bool true => ["--".data ++ hyphenateKey key]
  | .bool false => []
  | .none => []
  | v =>
      ["--".data ++ hyphenateKey key ++ "='".data
        ++ escapeSingleQuotes (pyStrVal v) ++ "'".data]

/-- Whether one option of `WPClient.wp` sets `auto_parse_json`: it reached the
key-value branch, its hyphenated key is `format` and its value is `'json'`. -/
def optMarksJson (key : Str) (value : PyVal) : Bool :=
  match value with
  | .bool _ => false
  | .none => false
  | v => hyphenateKey key == "format".data && v == PyVal.str "json".data

/-- The kwargs loop of `WPClient.wp`: fold the options over the positional
command parts, accumulating the rendered tokens and the `auto_parse_json`
flag. -/
def wpBuild (args : List Str) (kwargs : List (Str × PyVal)) : List Str × Bool :=
  kwargs.foldl
    (fun acc kv => (acc.1 ++ renderOption kv.1 kv.2, acc.2 || optMarksJson kv.1 kv.2))
    (args, false)

/-- Embeds `cmd = ' '.join(cmd_parts)` in `WPClient.wp`. -/
def wpCmd (args : List Str) (kwargs : List (Str × PyVal)) : Str :=
  joinSep " ".data (wpBuild args kwargs).1

/-- The `auto_parse_json` flag `WPClient.wp` ends its kwargs loop with. -/
def wpAutoJson (args : List Str) (kwargs : List (Str × PyVal)) : Bool :=
  (wpBuild args kwargs).2

/-- What `WPClient.wp` returns: the raw/stripped string, or the decoded JSON
when the call was marked for decoding and decoding succeeded. -/
inductive WpRet where
  | str (s : Str)
  | json (j : Json)

/-- Embeds `WPClient.wp`: render the command, execute it, and decode the result as
JSON when `format='json'` was among the options, falling back to the raw
string when decoding fails. -/
def wp (ctx : Ctx) (args : List Str) (kwargs : List (Str × PyVal)) :
    Except WPCLIError WpRet :=
  match execute_wp ctx (wpCmd args kwargs) with
  | .error e => .error e
  | .ok result =>
      if wpAutoJson args kwargs && !(pyStrip result).isEmpty then
        match ctx.json_loads result with
        | some j => .ok (.json j)
        | Option.none => .ok (.str result)
      else .ok (.str (if !result.isEmpty then pyStrip result else []))

/-- Python's `int(s)` on an already-stripped string: optional sign, then a
non-empty run of decimal digits (`none` models the `ValueError`; digit
grouping underscores do not occur in WP-CLI porcelain output). -/
def pyIntDigits (ds : Str) : Option Nat :=
  if ds.isEmpty then Option.none
  else ds.foldl
    (fun acc c =>
      match acc with
      | Option.none => Option.none
      | some n => if c.isDigit then some (n * 10 + (c.toNat - '0'.toNat)) else Option.none)
    (some 0)

/-- Python's `int(s)`. -/
def pyInt (s : Str) : Option Int :=
  match pyStrip s with
  | '-' :: ds => (pyIntDigits ds).map (fun n => -(n : Int))
  | '+' :: ds => (pyIntDigits ds).map (fun n => (n : Int))
  | ds => (pyIntDigits ds).map (fun n => (n : Int))

/-- Embeds `WPClient.get_post` with no `field` argument: `post get <id> --format=json`
and `json.loads` of the stripped stdout. -/
def get_post (ctx : Ctx) (post_id : Int) : Except PyExc Json :=
  match execute_wp ctx ("post get ".data ++ intStr post_id ++ " --format=json".data) with
  | .error e => .error (.wpcli e)
  | .ok result =>
      match ctx.json_loads result with
      | some j => .ok j
      | Option.none => .error .jsonDecodeError

/-- Embeds `WPClient.get_default_user`: try `user get 1 --field=user_login`; on any
exception list administrators as CSV and take the first line; on total
failure return `None`. -/
def get_default_user (ctx : Ctx) : Option Str :=
  match execute_wp ctx "user get 1 --field=user_login".data with
  | .ok result => some (pyStrip result)
  | .error _ =>
      match execute_wp ctx
          "user list --role=administrator --field=user_login --format=csv".data with
      | .error _ => Option.none
      | .ok result =>
          match (pyStrip result).splitOn '\n' with
          | [] => Option.none
          | u :: _ => if !u.isEmpty then some u else Option.none

/-- Embeds `f"--{key}='{escaped_value}'"`: the option rendering `create_post` and
`update_post` share (the raw key, no hyphenation). -/
def kwargArg (kv : Str × PyVal) : Str :=
  "--".data ++ kv.1 ++ "='".data ++ escapeSingleQuotes (pyStrVal kv.2) ++ "'".data

/-- The command `create_post` issues for the (possibly author-extended)
keyword arguments. -/
def create_post_cmd (kwargs : List (Str × PyVal)) : Str :=
  "post create ".data ++ joinSep " ".data (kwargs.map kwargArg) ++ " --porcelain".data

/-- Embeds `WPClient.create_post`: resolve a default author when none was given
(best-effort), issue `post create .. --porcelain`, and parse the stripped
stdout as the created post id. -/
def create_post (ctx : Ctx) (kwargs : List (Str × PyVal)) : Except PyExc Int :=
  let kwargs2 :=
    if kwargs.any (fun kv => kv.1 == "post_author".data) then kwargs
    else
      match get_default_user ctx with
      | some default_user =>
          if !default_user.isEmpty then
            kwargs ++ [("post_author".data, PyVal.str default_user)]
          else kwargs
      | Option.none => kwargs
  match execute_wp ctx (create_post_cmd kwargs2) with
  | .error e => .error (.wpcli e)
  | .ok result =>
      match pyInt (pyStrip result) with
      | some post_id => .ok post_id
      | Option.none => .error .valueError

/-- The command `update_post` issues. -/
def update_post_cmd (post_id : Int) (kwargs : List (Str × PyVal)) : Str :=
  "post update ".data ++ intStr post_id ++ " ".data
    ++ joinSep " ".data (kwargs.map kwargArg)

/-- Embeds `WPClient.update_post`: issue `post update <id> ..` and return `True`;
the `WPCLIError` of the execution primitive propagates. -/
def update_post (ctx : Ctx) (post_id : Int) (kwargs : List (Str × PyVal)) :
    Except WPCLIError Bool :=
  match execute_wp ctx (update_post_cmd post_id kwargs) with
  | .error e => .error e
  | .ok _ => .ok true

/-- Embeds `WPClient.post_exists`: `post exists <id>`, converting the `WPCLIError`
into `False`. -/
def post_exists (ctx : Ctx) (post_id : Int) : Bool :=
  match execute_wp ctx ("post exists ".data ++ intStr post_id) with
  | .ok _ => true
  | .error _ => false

/-- The command `set_post_categories` issues: category ids joined with commas
into one `post update`. -/
def set_post_categories_cmd (post_id : Int) (category_ids : List Int) : Str :=
  "post update ".data ++ intStr post_id ++ " --post_category=".data
    ++ joinSep ",".data (category_ids.map intStr)

/-- Embeds `WPClient.set_post_categories`: empty id list returns `False` with no
remote call; otherwise one `post update`; a `WPCLIError` whose message
contains `Term doesn't exist` triggers a single compensating re-fetch of the
post, succeeding when `post_category` appears textually in it and re-raising
the original error otherwise. -/
def set_post_categories (ctx : Ctx) (post_id : Int) (category_ids : List Int) :
    Except PyExc Bool :=
  if category_ids.isEmpty then .ok false
  else
    match execute_wp ctx (set_post_categories_cmd post_id category_ids) with
    | .ok _ => .ok true
    | .error e =>
        if isSubstr "Term doesn't exist".data e.msg then
          match get_post ctx post_id with
          | .error e2 => .error e2
          | .ok post_data =>
              if pyTruthyJson post_data
                  && isSubstr "post_category".data (pyStrJson post_data) then
                .ok true
              else .error (.wpcli e)
        else .error (.wpcli e)

/-- The command `set_config_param` issues. -/
def set_config_param_cmd (param value : Str) : Str :=
  "config set ".data ++ param ++ " '".data ++ escapeSingleQuotes value ++ "'".data

/-- Embeds `WPClient.set_config_param`: `config set <param> '<escaped>'`, catching
the `WPCLIError` and returning `False` instead of propagating it. -/
def set_config_param (ctx : Ctx) (param value : Str) : Bool :=
  match execute_wp ctx (set_config_param_cmd param value) with
  | .ok _ => true
  | .error _ => false

/-- The command `list_categories` issues; a truthy `search` appends a
double-quote-escaped `--search` clause. -/
def list_categories_cmd (search : Option Str) : Str :=
  "term list category --format=json --fields=term_id,name,slug,parent,count".data
    ++ match search with
       | some s =>
           if !s.isEmpty then
             " --search=\"".data ++ escapeDoubleQuotes s ++ "\"".data
           else []
       | Option.none => []

/-- Embeds `WPClient.list_categories`: run the term listing and `json.loads` the
output (the debug `len(categories)` call makes an unsized decode a
`TypeError`). -/
def list_categories (ctx : Ctx) (search : Option Str) : Except PyExc Json :=
  match execute_wp ctx (list_categories_cmd search) with
  | .error e => .error (.wpcli e)
  | .ok result =>
      match ctx.json_loads result with
      | Option.none => .error .jsonDecodeError
      | some j =>
          match j with
          | .arr _ => .ok j
          | .obj _ => .ok j
          | .str _ => .ok j
          | _ => .error .typeError

/-- The slug lookup command `get_category_by_name` tries first. -/
def get_category_by_name_cmd (name : Str) : Str :=
  "term get category '".data ++ name
    ++ "' --format=json --fields=term_id,name,slug,parent".data

/-- The linear scan of `get_category_by_name`'s fallback: first category whose
`name` or `slug` equals the query case-insensitively; dynamic failures of
`cat['name'].lower()` surface as exceptions. -/
def findCatMatch (name : Str) : List Json → Except PyExc (Option Json)
  | [] => .ok Option.none
  | cat :: rest =>
      match cat with
      | .obj _ =>
          match jsonGet cat "name".data with
          | Option.none => .error .keyError
          | some (.str n) =>
              if lowerStr n == lowerStr name then .ok (some cat)
              else
                match jsonGet cat "slug".data with
                | Option.none => .error .keyError
                | some (.str s) =>
                    if lowerStr s == lowerStr name then .ok (some cat)
                    else findCatMatch name rest
                | some _ => .error .attributeError
          | some _ => .error .attributeError
      | _ => .error .typeError

/-- Embeds `WPClient.get_category_by_name`: exact slug lookup first; on `WPCLIError`
fall back to the search listing and scan it; no match is the explicit `None`.
Iterating a non-list decode raises unless it is empty (an empty dict or
string iterates zero times and falls through to `return None`). -/
def get_category_by_name (ctx : Ctx) (name : Str) : Except PyExc (Option Json) :=
  match execute_wp ctx (get_category_by_name_cmd name) with
  | .ok result =>
      match ctx.json_loads result with
      | some category => .ok (some category)
      | Option.none => .error .jsonDecodeError
  | .error _ =>
      match list_categories ctx (some name) with
      | .error e => .error e
      | .ok (.arr cats) => findCatMatch name cats
      | .ok (.obj []) => .ok Option.none
      | .ok (.str []) => .ok Option.none
      | .ok _ => .error .typeError

end PraisonWP

namespace PraisonWP

theorem unquoteAux_quote (b : Bool) (r : Str) :
    unquoteAux b ('\'' :: r) = unquoteAux (!b) r := by
  rw [unquoteAux.eq_def]; simp

theorem unquoteAux_true_other (c : Char) (r : Str) (h : c ≠ '\'') :
    unquoteAux true (c :: r) = (unquoteAux true r).map (c :: ·) := by
  rw [unquoteAux.eq_def]; simp [h]

theorem unquoteAux_false_backslash (d : Char) (r : Str) :
    unquoteAux false ('\\' :: d :: r) = (unquoteAux false r).map (d :: ·) := by
  rw [unquoteAux.eq_def]; simp +decide

theorem escapeSingleQuotes_cons_quote (v : Str) :
    escapeSingleQuotes ('\'' :: v)
      = '\'' :: '\\' :: '\'' :: '\'' :: escapeSingleQuotes v := by
  rw [escapeSingleQuotes.eq_def]; simp

theorem escapeSingleQuotes_cons_other (c : Char) (v : Str) (h : c ≠ '\'') :
    escapeSingleQuotes (c :: v) = c :: escapeSingleQuotes v := by
  rw [escapeSingleQuotes.eq_def]; simp [h]

/-- Inside a single-quoted region, scanning the escape of `v` up to the
closing quote produces `v` in front of whatever the rest unquotes to. -/
theorem unquoteAux_escape (v rest : Str) :
    unquoteAux true (escapeSingleQuotes v ++ '\'' :: rest)
      = (unquoteAux false rest).map (v ++ ·) := by
  induction v with
  | nil =>
      rw [show escapeSingleQuotes [] = [] from rfl, List.nil_append, unquoteAux_quote]
      cases h : unquoteAux false rest <;> simp [h]
  | cons c v ih =>
      by_cases hc : c = '\''
      · subst hc
        rw [escapeSingleQuotes_cons_quote, List.cons_append, List.cons_append,
          List.cons_append, List.cons_append, unquoteAux_quote, Bool.not_true,
          unquoteAux_false_backslash, unquoteAux_quote, Bool.not_false, ih]
        cases h : unquoteAux false rest <;> simp [h]
      · rw [escapeSingleQuotes_cons_other c v hc, List.cons_append,
          unquoteAux_true_other c _ hc, ih]
        cases h : unquoteAux false rest <;> simp [h]

/-- C1: the scalar-option rendering of `WPClient.wp` produces exactly
`--<name>='<escaped>'` with every single quote of the stringified value
replaced by the four characters `'\''`, and one POSIX unquoting pass over the
rendered quoted value recovers the original string: `unquote(render(v)) = v`
for every string `v`. -/
theorem claim1_escaping_roundtrip (key v : Str) :
    renderOption key (.str v)
      = ["--".data ++ hyphenateKey key ++ "='".data ++ escapeSingleQuotes v ++ "'".data]
    ∧ posixUnquote ('\'' :: escapeSingleQuotes v ++ ['\'']) = some v := by
  refine ⟨rfl, ?_⟩
  show unquoteAux false ('\'' :: (escapeSingleQuotes v ++ ['\''])) = some v
  rw [unquoteAux_quote, Bool.not_false, show ['\''] = '\'' :: ([] : Str) from rfl,
    unquoteAux_escape]
  simp [show unquoteAux false [] = some [] from rfl]

/-- C3: in `WPClient.wp` a boolean-`True` option renders as the bare
hyphenated flag, `False` and `None` render nothing, and every other value
renders as `--<name>='<escaped>'`; `porcelain=True` renders exactly
`--porcelain`. -/
theorem claim3_flag_rendering (key s : Str) (n : Int) :
    renderOption key (.bool true) = ["--".data ++ hyphenateKey key]
    ∧ renderOption key (.bool false) = []
    ∧ renderOption key .none = []
    ∧ renderOption key (.str s)
        = ["--".data ++ hyphenateKey key ++ "='".data ++ escapeSingleQuotes s ++ "'".data]
    ∧ renderOption key (.int n)
        = ["--".data ++ hyphenateKey key ++ "='".data
            ++ escapeSingleQuotes (intStr n) ++ "'".data]
    ∧ renderOption "porcelain".data (.bool true) = ["--porcelain".data]
    ∧ wpCmd ["post".data, "list".data] [("porcelain".data, .bool true)]
        = "post list --porcelain".data :=
  ⟨rfl, rfl, rfl, rfl, rfl, by decide, by decide⟩

/-- C10: `set_post_categories` with an empty category-id list returns `False`
for every context, so no remote command is issued and no error is raised. -/
theorem claim10_empty_category_list (ctx : Ctx) (post_id : Int) :
    set_post_categories ctx post_id [] = .ok false := rfl

theorem isEmpty_false_of_substr_lower {needle stderr : Str}
    (h : isSubstr needle (lowerStr stderr) = true) (hn : needle.isEmpty = false) :
    stderr.isEmpty = false := by
  cases stderr with
  | nil =>
      rw [show lowerStr [] = [] from rfl,
        show isSubstr needle [] = needle.isEmpty from rfl, hn] at h
      exact absurd h (by decide)
  | cons a t => rfl

/-- C2 (amended): `_execute_wp` classifies the lower-cased stderr first-match-
wins — empty means success, then `command not found`, then `no such file or
directory`, then `error:` (which raises carrying the full stderr even when
`term doesn't exist` is present), else success — and the `term doesn't exist`
phrase check only suppresses the error log, matched case-insensitively on the
lower-cased stderr. -/
theorem claim2_stderr_classification (ctx : Ctx) (c out stderr : Str)
    (hex : ctx.ssh_execute (fullCmd ctx.wp_path ctx.php_bin ctx.wp_cli c)
      = .ok out stderr) :
    (stderr = [] → execute_wp ctx c = .ok (pyStrip out))
  ∧ (isSubstr "command not found".data (lowerStr stderr) = true →
       execute_wp ctx c = .error ⟨cmdNotFoundMsg ctx.wp_cli ctx.php_bin stderr⟩)
  ∧ (isSubstr "command not found".data (lowerStr stderr) = false →
     isSubstr "no such file or directory".data (lowerStr stderr) = true →
       execute_wp ctx c = .error ⟨fileNotFoundMsg ctx.wp_path ctx.wp_cli stderr⟩)
  ∧ (isSubstr "command not found".data (lowerStr stderr) = false →
     isSubstr "no such file or directory".data (lowerStr stderr) = false →
     isSubstr "error:".data (lowerStr stderr) = true →
       execute_wp ctx c = .error ⟨wpErrorMsg stderr⟩)
  ∧ (isSubstr "command not found".data (lowerStr stderr) = false →
     isSubstr "no such file or directory".data (lowerStr stderr) = false →
     isSubstr "error:".data (lowerStr stderr) = false →
       execute_wp ctx c = .ok (pyStrip out))
  ∧ (isSubstr "error:".data (lowerStr stderr) = true →
     isSubstr "term doesn't exist".data (lowerStr stderr) = true →
       logsWpError stderr = false)
  ∧ (isSubstr "command not found".data (lowerStr stderr) = false →
     isSubstr "no such file or directory".data (lowerStr stderr) = false →
     isSubstr "error:".data (lowerStr stderr) = true →
     isSubstr "term doesn't exist".data (lowerStr stderr) = false →
       logsWpError stderr = true) := by
  refine ⟨?_, ?_, ?_, ?_, ?_, ?_, ?_⟩
  · intro h
    subst h
    simp [execute_wp, hex]
  · intro h
    have hne := isEmpty_false_of_substr_lower h (by decide)
    simp [execute_wp, hex, hne, h]
  · intro h1 h2
    have hne := isEmpty_false_of_substr_lower h2 (by decide)
    simp [execute_wp, hex, hne, h1, h2]
  · intro h1 h2 h3
    have hne := isEmpty_false_of_substr_lower h3 (by decide)
    simp [execute_wp, hex, hne, h1, h2, h3]
  · intro h1 h2 h3
    cases hemp : stderr.isEmpty with
    | true => simp [execute_wp, hex, hemp]
    | false => simp [execute_wp, hex, hemp, h1, h2, h3]
  · intro _ htd
    simp [logsWpError, htd]
  · intro h1 h2 h3 h4
    have hne := isEmpty_false_of_substr_lower h3 (by decide)
    simp [logsWpError, hne, h1, h2, h3, h4]

/-- A stderr carrying both the `command not found` and the `error:` marker:
the classifier's precedence picks the command-not-found variant. -/
def stderrBothPatterns : Str := "bash: wp: command not found, error: no wp".data

/-- A context whose executor always answers with `stderrBothPatterns`. -/
def ctxBothPatterns : Ctx :=
  ⟨"/w".data, "php".data, "/wp".data,
    fun _ => ExecResult.ok "out".data stderrBothPatterns, fun _ => Option.none⟩

/-- Witness for C2: on a stderr containing both `command not found` and
`error:` the raised error is the command-not-found guidance variant. -/
theorem claim2_witness :
    execute_wp ctxBothPatterns "post list".data
      = .error ⟨cmdNotFoundMsg "/wp".data "php".data stderrBothPatterns⟩ :=
  (claim2_stderr_classification ctxBothPatterns "post list".data "out".data
    stderrBothPatterns rfl).2.1 (by decide)

/-- C2 counterexample: on stderr `Error: Term doesn't exist.` the code
suppresses the error log (its check runs on the lower-cased stderr), while
the claim's case-sensitive exact-phrase check fails to match and so predicts
the log is emitted. -/
theorem claim2_counterexample :
    specLoggedError "Error: Term doesn't exist.".data = true
    ∧ logsWpError "Error: Term doesn't exist.".data = false := by
  exact ⟨by decide, by decide⟩

/-- C4: `_execute_wp` builds exactly the line
`cd <wp_path> && <php_bin> <wp_cli> <command>`; its result depends on the
executor only through that one command line; a transport exception is
re-raised as a `WPCLIError` wrapping the original message; a run without
failure markers returns the stdout stripped of surrounding whitespace. -/
theorem claim4_execution_primitive (ctx : Ctx) (c : Str) :
    (fullCmd ctx.wp_path ctx.php_bin ctx.wp_cli c
       = "cd ".data ++ ctx.wp_path ++ " && ".data ++ ctx.php_bin ++ " ".data
           ++ ctx.wp_cli ++ " ".data ++ c)
  ∧ (∀ m, ctx.ssh_execute (fullCmd ctx.wp_path ctx.php_bin ctx.wp_cli c) = .exn m →
       execute_wp ctx c = .error ⟨execFailMsg m⟩)
  ∧ (∀ out stderr,
       ctx.ssh_execute (fullCmd ctx.wp_path ctx.php_bin ctx.wp_cli c) = .ok out stderr →
       isSubstr "command not found".data (lowerStr stderr) = false →
       isSubstr "no such file or directory".data (lowerStr stderr) = false →
       isSubstr "error:".data (lowerStr stderr) = false →
       execute_wp ctx c = .ok (pyStrip out))
  ∧ (∀ ctx2 : Ctx, ctx2.wp_path = ctx.wp_path → ctx2.php_bin = ctx.php_bin →
       ctx2.wp_cli = ctx.wp_cli →
       ctx2.ssh_execute (fullCmd ctx.wp_path ctx.php_bin ctx.wp_cli c)
         = ctx.ssh_execute (fullCmd ctx.wp_path ctx.php_bin ctx.wp_cli c) →
       execute_wp ctx2 c = execute_wp ctx c) := by
  refine ⟨rfl, ?_, ?_, ?_⟩
  · intro m hm
    simp [execute_wp, hm]
  · intro out stderr hex h1 h2 h3
    cases hemp : stderr.isEmpty with
    | true => simp [execute_wp, hex, hemp]
    | false => simp [execute_wp, hex, hemp, h1, h2, h3]
  · intro ctx2 h1 h2 h3 h4
    unfold execute_wp
    rw [h1, h2, h3, h4]

/-- A context whose executor always raises a transport exception. -/
def ctxTransportDown : Ctx :=
  ⟨"/var/www".data, "php".data, "/usr/local/bin/wp".data,
    fun _ => ExecResult.exn "Connection lost".data, fun _ => Option.none⟩

/-- Witness for C4: a transport exception surfaces as the wrapping
`WPCLIError`. -/
theorem claim4_witness :
    execute_wp ctxTransportDown "plugin list".data
      = .error ⟨execFailMsg "Connection lost".data⟩ :=
  (claim4_execution_primitive ctxTransportDown "plugin list".data).2.1
    "Connection lost".data rfl

theorem optMarksJson_eq (k : Str) (v : PyVal) :
    optMarksJson k v
      = (hyphenateKey k == "format".data && v == PyVal.str "json".data) := by
  cases v with
  | str s => rfl
  | int n => rfl
  | bool b => cases b <;> simp +decide [optMarksJson]
  | none => simp +decide [optMarksJson]

theorem wpBuild_snd_aux (kwargs : List (Str × PyVal)) (init : List Str × Bool) :
    (kwargs.foldl
      (fun acc kv => (acc.1 ++ renderOption kv.1 kv.2, acc.2 || optMarksJson kv.1 kv.2))
      init).2
      = (init.2 || kwargs.any (fun kv => optMarksJson kv.1 kv.2)) := by
  induction kwargs generalizing init with
  | nil => simp
  | cons kv t ih => simp [List.foldl_cons, ih, Bool.or_assoc, List.any_cons]

/-- The `auto_parse_json` flag of `WPClient.wp` is set exactly when some
option's hyphenated key is `format` with string value `'json'`. -/
theorem wpAutoJson_eq (args : List Str) (kwargs : List (Str × PyVal)) :
    wpAutoJson args kwargs
      = kwargs.any (fun kv => hyphenateKey kv.1 == "format".data
          && kv.2 == PyVal.str "json".data) := by
  unfold wpAutoJson wpBuild
  rw [wpBuild_snd_aux]
  simp [optMarksJson_eq]

/-- C5: a call of `WPClient.wp` is marked for JSON decoding exactly when an
option has hyphenated name `format` and string value `'json'`; a marked call
with non-empty trimmed stdout returns the decoded JSON, or the raw trimmed
string when decoding fails (no exception); an unmarked call returns the
trimmed stdout (the empty string when stdout is empty or whitespace). -/
theorem claim5_json_autodecode (ctx : Ctx) (args : List Str)
    (kwargs : List (Str × PyVal)) (out : Str)
    (hex : execute_wp ctx (wpCmd args kwargs) = .ok out) :
    (wpAutoJson args kwargs
       = kwargs.any (fun kv => hyphenateKey kv.1 == "format".data
           && kv.2 == PyVal.str "json".data))
  ∧ (wpAutoJson args kwargs = true → (pyStrip out).isEmpty = false →
       (∀ j, ctx.json_loads out = some j → wp ctx args kwargs = .ok (.json j))
     ∧ (ctx.json_loads out = Option.none → wp ctx args kwargs = .ok (.str out)))
  ∧ (wpAutoJson args kwargs = false → wp ctx args kwargs = .ok (.str (pyStrip out))) := by
  refine ⟨wpAutoJson_eq args kwargs, ?_, ?_⟩
  · intro hm hne
    constructor
    · intro j hj
      simp [wp, hex, hm, hne, hj]
    · intro hj
      simp [wp, hex, hm, hne, hj]
  · intro hm
    cases out with
    | nil => simp [wp, hex, hm, show pyStrip [] = [] from rfl]
    | cons a t => simp [wp, hex, hm]

/-- The JSON text of the spec's auto-decode example. -/
def jsonOutStr : Str := "[\x7b\"a\":1\x7d]".data

/-- The decoded structure of `jsonOutStr`: a one-element list holding a dict
with field `a = 1`. -/
def demoJson : Json := .arr [.obj [("a".data, Json.num 1)]]

/-- The positional parts of the witness invocation. -/
def wpArgsList : List Str := ["post".data, "list".data]

/-- The options of the witness invocation: `format='json'`. -/
def wpKwargsJson : List (Str × PyVal) := [("format".data, PyVal.str "json".data)]

/-- A context whose executor prints `jsonOutStr` and whose decoder parses it. -/
def ctxJsonOk : Ctx :=
  ⟨"/w".data, "php".data, "/wp".data, fun _ => ExecResult.ok jsonOutStr [],
    fun s => if s = jsonOutStr then some demoJson else Option.none⟩

/-- A context whose executor prints malformed JSON. -/
def ctxJsonBad : Ctx :=
  ⟨"/w".data, "php".data, "/wp".data, fun _ => ExecResult.ok "not json".data [],
    fun _ => Option.none⟩

/-- Witness for C5: `format='json'` with stdout `[{"a":1}]` decodes to the
structure, and the same call with malformed stdout returns the raw string. -/
theorem claim5_witness :
    wp ctxJsonOk wpArgsList wpKwargsJson = .ok (.json demoJson)
    ∧ wp ctxJsonBad wpArgsList wpKwargsJson = .ok (.str "not json".data) :=
  ⟨((claim5_json_autodecode ctxJsonOk wpArgsList wpKwargsJson jsonOutStr rfl).2.1
      (by decide) (by decide)).1 demoJson rfl,
   ((claim5_json_autodecode ctxJsonBad wpArgsList wpKwargsJson "not json".data rfl).2.1
      (by decide) (by decide)).2 rfl⟩

/-- Every falsy decode result has a short textual form, so a refetched post
whose text contains `post_category` is necessarily truthy: the code's
`post_data and 'post_category' in str(post_data)` collapses to the
containment test. -/
theorem truthy_of_contains_post_category (pd : Json)
    (h : isSubstr "post_category".data (pyStrJson pd) = true) :
    pyTruthyJson pd = true := by
  cases hp : pyTruthyJson pd with
  | true => rfl
  | false =>
      exfalso
      cases pd with
      | null => exact absurd h (by decide)
      | bool b =>
          cases b with
          | false => exact absurd h (by decide)
          | true => simp [pyTruthyJson] at hp
      | num n =>
          have hn : n = 0 := by simpa [pyTruthyJson] using hp
          subst hn
          exact absurd h (by decide)
      | str s =>
          cases s with
          | nil => exact absurd h (by decide)
          | cons a t => simp [pyTruthyJson] at hp
      | arr xs =>
          cases xs with
          | nil => exact absurd h (by decide)
          | cons x t => simp [pyTruthyJson] at hp
      | obj ps =>
          cases ps with
          | nil => exact absurd h (by decide)
          | cons p t => simp [pyTruthyJson] at hp

/-- C6: `set_post_categories` joins the ids with commas into one
`post update`; a `WPCLIError` whose message contains `Term doesn't exist`
triggers a single compensating re-fetch, succeeding exactly when
`post_category` appears textually in the refetched post and re-raising the
original error otherwise; any other error propagates immediately. -/
theorem claim6_category_compensation (ctx : Ctx) (post_id : Int)
    (ids : List Int) (hne : ids ≠ []) :
    (set_post_categories_cmd post_id ids
       = "post update ".data ++ intStr post_id ++ " --post_category=".data
           ++ joinSep ",".data (ids.map intStr))
  ∧ (∀ r, execute_wp ctx (set_post_categories_cmd post_id ids) = .ok r →
       set_post_categories ctx post_id ids = .ok true)
  ∧ (∀ e, execute_wp ctx (set_post_categories_cmd post_id ids) = .error e →
       isSubstr "Term doesn't exist".data e.msg = true →
       ∀ pd, get_post ctx post_id = .ok pd →
         (isSubstr "post_category".data (pyStrJson pd) = true →
            set_post_categories ctx post_id ids = .ok true)
       ∧ (isSubstr "post_category".data (pyStrJson pd) = false →
            set_post_categories ctx post_id ids = .error (.wpcli e)))
  ∧ (∀ e, execute_wp ctx (set_post_categories_cmd post_id ids) = .error e →
       isSubstr "Term doesn't exist".data e.msg = false →
       set_post_categories ctx post_id ids = .error (.wpcli e)) := by
  have hie : ids.isEmpty = false := by
    cases ids with
    | nil => exact absurd rfl hne
    | cons a t => rfl
  refine ⟨rfl, ?_, ?_, ?_⟩
  · intro r hr
    simp [set_post_categories, hie, hr]
  · intro e he htd pd hpd
    constructor
    · intro hc
      have ht := truthy_of_contains_post_category pd hc
      simp [set_post_categories, hie, he, htd, hpd, hc, ht]
    · intro hc
      simp [set_post_categories, hie, he, htd, hpd, hc]
  · intro e he htd
    simp [set_post_categories, hie, he, htd]

/-- The stderr of the spurious category-assignment failure. -/
def stderrTermMissing : Str := "Error: Term doesn't exist.".data

/-- The refetched post of the compensation witness: its text contains
`post_category`. -/
def demoPost : Json :=
  .obj [("ID".data, Json.num 7), ("post_category".data, Json.arr [Json.num 5])]

/-- A context where `post update 7 --post_category=5` fails with the spurious
term error but the refetch of post 7 shows the category field. -/
def ctxCompensated : Ctx :=
  ⟨"/w".data, "php".data, "/wp".data,
    fun c =>
      if c = fullCmd "/w".data "php".data "/wp".data
          (set_post_categories_cmd 7 [5]) then
        ExecResult.ok [] stderrTermMissing
      else if c = fullCmd "/w".data "php".data "/wp".data
          ("post get ".data ++ intStr 7 ++ " --format=json".data) then
        ExecResult.ok "POST".data []
      else ExecResult.exn "unexpected".data,
    fun s => if s = "POST".data then some demoPost else Option.none⟩

/-- Witness for C6: the compensated path returns `True` for a refetch whose
text contains the category field. -/
theorem claim6_witness :
    set_post_categories ctxCompensated 7 [5] = .ok true :=
  (((claim6_category_compensation ctxCompensated 7 [5] (by decide)).2.2.1
      ⟨wpErrorMsg stderrTermMissing⟩ rfl (by decide) demoPost rfl).1 (by decide))

/-- The WordPress path of the end-to-end scenarios. -/
def demoPath : Str := "/var/www/html".data

/-- The PHP binary of the end-to-end scenarios. -/
def demoPhp : Str := "php".data

/-- The WP-CLI path of the end-to-end scenarios. -/
def demoCli : Str := "/usr/local/bin/wp".data

/-- The first command `get_default_user` tries. -/
def userGetCmd : Str := "user get 1 --field=user_login".data

/-- The fallback command of `get_default_user`. -/
def userListCmd : Str :=
  "user list --role=administrator --field=user_login --format=csv".data

/-- The keyword arguments of the end-to-end `create_post` scenario. -/
def kwHi : List (Str × PyVal) :=
  [("post_title".data, PyVal.str "Hi".data),
   ("post_content".data, PyVal.str "World".data),
   ("post_status".data, PyVal.str "publish".data)]

/-- The list `kwHi` with the resolved author `admin` appended (Python dict insertion
order puts the late assignment last). -/
def kwHiAdmin : List (Str × PyVal) :=
  kwHi ++ [("post_author".data, PyVal.str "admin".data)]

/-- The list `kwHi` with the fallback-resolved author `alice` appended. -/
def kwHiAlice : List (Str × PyVal) :=
  kwHi ++ [("post_author".data, PyVal.str "alice".data)]

/-- A system where fetching user 1 succeeds with login `admin` and the
author-extended create command answers `42`. -/
def ctxAuthorUser1 : Ctx :=
  ⟨demoPath, demoPhp, demoCli,
    fun c =>
      if c = fullCmd demoPath demoPhp demoCli userGetCmd then
        ExecResult.ok "admin".data []
      else if c = fullCmd demoPath demoPhp demoCli (create_post_cmd kwHiAdmin) then
        ExecResult.ok "42".data []
      else ExecResult.exn "unexpected".data,
    fun _ => Option.none⟩

/-- A system where fetching user 1 fails, the administrator listing answers
`alice\nbob`, and the `alice`-authored create answers `7`. -/
def ctxAuthorFallback : Ctx :=
  ⟨demoPath, demoPhp, demoCli,
    fun c =>
      if c = fullCmd demoPath demoPhp demoCli userGetCmd then
        ExecResult.ok [] "Error: no user 1".data
      else if c = fullCmd demoPath demoPhp demoCli userListCmd then
        ExecResult.ok "alice\nbob".data []
      else if c = fullCmd demoPath demoPhp demoCli (create_post_cmd kwHiAlice) then
        ExecResult.ok "7".data []
      else ExecResult.exn "unexpected".data,
    fun _ => Option.none⟩

/-- A system where both author lookups fail and only the author-less create
command succeeds, answering `9`. -/
def ctxAuthorNone : Ctx :=
  ⟨demoPath, demoPhp, demoCli,
    fun c =>
      if c = fullCmd demoPath demoPhp demoCli (create_post_cmd kwHi) then
        ExecResult.ok "9".data []
      else ExecResult.exn "unexpected".data,
    fun _ => Option.none⟩

/-- C7: `create_post` without `post_author` resolves the default author from
user 1 (`admin` here), issues a create command containing
`--post_author='admin'` and `--porcelain`, and returns the integer parsed
from stdout (`42`); when user 1 fails it falls back to the first
administrator login; when both lookups fail the create still proceeds with
no author set. -/
theorem claim7_create_post_default_author :
    create_post ctxAuthorUser1 kwHi = .ok 42
  ∧ isSubstr "--post_author='admin'".data (create_post_cmd kwHiAdmin) = true
  ∧ isSubstr "--porcelain".data (create_post_cmd kwHiAdmin) = true
  ∧ get_default_user ctxAuthorUser1 = some "admin".data
  ∧ get_default_user ctxAuthorFallback = some "alice".data
  ∧ create_post ctxAuthorFallback kwHi = .ok 7
  ∧ get_default_user ctxAuthorNone = Option.none
  ∧ create_post ctxAuthorNone kwHi = .ok 9 :=
  ⟨rfl, by decide, by decide, by decide, by decide, rfl, by decide, rfl⟩

/-- C8: `get_category_by_name` returns the decoded slug lookup when it
succeeds; on a `WPCLIError` it scans the search listing linearly and returns
the first category whose `name` or `slug` matches case-insensitively, or the
explicit `None` when the listing is exhausted. -/
theorem claim8_get_category_by_name (ctx : Ctx) (name : Str) :
    (∀ r j, execute_wp ctx (get_category_by_name_cmd name) = .ok r →
       ctx.json_loads r = some j → get_category_by_name ctx name = .ok (some j))
  ∧ (∀ e r cats, execute_wp ctx (get_category_by_name_cmd name) = .error e →
       execute_wp ctx (list_categories_cmd (some name)) = .ok r →
       ctx.json_loads r = some (.arr cats) →
       get_category_by_name ctx name = findCatMatch name cats)
  ∧ (findCatMatch name [] = .ok Option.none)
  ∧ (∀ ps rest nm sl,
       jsonGet (.obj ps) "name".data = some (.str nm) →
       jsonGet (.obj ps) "slug".data = some (.str sl) →
       ((lowerStr nm = lowerStr name ∨ lowerStr sl = lowerStr name →
           findCatMatch name (.obj ps :: rest) = .ok (some (.obj ps)))
       ∧ (lowerStr nm ≠ lowerStr name → lowerStr sl ≠ lowerStr name →
           findCatMatch name (.obj ps :: rest) = findCatMatch name rest))) := by
  refine ⟨?_, ?_, rfl, ?_⟩
  · intro r j hr hj
    simp [get_category_by_name, hr, hj]
  · intro e r cats he hl hj
    simp [get_category_by_name, he, list_categories, hl, hj]
  · intro ps rest nm sl hn hs
    constructor
    · intro hor
      by_cases hnm : lowerStr nm = lowerStr name
      · rw [findCatMatch.eq_def]
        simp [hn, hnm]
      · have hsl : lowerStr sl = lowerStr name := hor.resolve_left hnm
        rw [findCatMatch.eq_def]
        simp [hn, hs, hnm, hsl]
    · intro hnm hsl
      rw [findCatMatch.eq_def]
      simp [hn, hs, hnm, hsl]

/-- The query of the C8 witness. -/
def newsQuery : Str := "News".data

/-- A listing entry that matches neither by name nor by slug. -/
def catSports : Json :=
  .obj [("term_id".data, Json.num 2), ("name".data, Json.str "Sports".data),
        ("slug".data, Json.str "sports".data)]

/-- The first listing entry whose name matches `News` case-insensitively. -/
def catNews : Json :=
  .obj [("term_id".data, Json.num 3), ("name".data, Json.str "news".data),
        ("slug".data, Json.str "news-topics".data)]

/-- A context where the slug lookup for `News` fails and the search listing
answers the two categories above. -/
def ctxCategorySearch : Ctx :=
  ⟨"/w".data, "php".data, "/wp".data,
    fun c =>
      if c = fullCmd "/w".data "php".data "/wp".data
          (get_category_by_name_cmd newsQuery) then
        ExecResult.ok [] "Error: Term doesn't exist.".data
      else if c = fullCmd "/w".data "php".data "/wp".data
          (list_categories_cmd (some newsQuery)) then
        ExecResult.ok "CATS".data []
      else ExecResult.exn "unexpected".data,
    fun s => if s = "CATS".data then some (.arr [catSports, catNews])
             else Option.none⟩

/-- Witness for C8: the fallback scan skips the non-matching category and
returns the first case-insensitive match. -/
theorem claim8_witness :
    get_category_by_name ctxCategorySearch newsQuery = .ok (some catNews) := by
  have h := (claim8_get_category_by_name ctxCategorySearch newsQuery).2.1
    ⟨wpErrorMsg "Error: Term doesn't exist.".data⟩ "CATS".data [catSports, catNews]
    rfl rfl rfl
  rw [h]
  rfl

/-- C9 (amended): `update_post` propagates the `WPCLIError` of the execution
primitive unchanged, while `post_exists` — an "exists" check — and also
`set_config_param` convert it into boolean `False` instead of raising. -/
theorem claim9_error_propagation (ctx : Ctx) (post_id : Int)
    (kwargs : List (Str × PyVal)) (param value : Str) (e : WPCLIError) :
    (execute_wp ctx (update_post_cmd post_id kwargs) = .error e →
       update_post ctx post_id kwargs = .error e)
  ∧ (∀ r, execute_wp ctx (update_post_cmd post_id kwargs) = .ok r →
       update_post ctx post_id kwargs = .ok true)
  ∧ (execute_wp ctx ("post exists ".data ++ intStr post_id) = .error e →
       post_exists ctx post_id = false)
  ∧ (execute_wp ctx (set_config_param_cmd param value) = .error e →
       set_config_param ctx param value = false) := by
  refine ⟨?_, ?_, ?_, ?_⟩
  · intro h
    unfold update_post
    rw [h]
  · intro r h
    unfold update_post
    rw [h]
  · intro h
    unfold post_exists
    rw [h]
  · intro h
    unfold set_config_param
    rw [h]

/-- A context whose executor answers every command with a generic tool
error on stderr. -/
def ctxAllErrors : Ctx :=
  ⟨"/w".data, "php".data, "/wp".data,
    fun _ => ExecResult.ok [] "Error: permission denied".data, fun _ => Option.none⟩

/-- Witness for C9: on a failing system `update_post` raises the classified
error while `post_exists` and `set_config_param` return `False`. -/
theorem claim9_witness :
    update_post ctxAllErrors 3 [("post_title".data, PyVal.str "T".data)]
      = .error ⟨wpErrorMsg "Error: permission denied".data⟩
    ∧ post_exists ctxAllErrors 3 = false :=
  ⟨(claim9_error_propagation ctxAllErrors 3
      [("post_title".data, PyVal.str "T".data)] "k".data "v".data
      ⟨wpErrorMsg "Error: permission denied".data⟩).1 rfl,
   (claim9_error_propagation ctxAllErrors 3
      [("post_title".data, PyVal.str "T".data)] "k".data "v".data
      ⟨wpErrorMsg "Error: permission denied".data⟩).2.2.1 rfl⟩

/-- C9 counterexample: at a concrete failing input `set_config_param`
swallows the execution error and returns `False` — it is not among the
claim's exemptions, yet it does not propagate the error the way
`update_post` does. -/
theorem claim9_counterexample :
    set_config_param ctxAllErrors "WP_DEBUG".data "true".data = false
    ∧ update_post ctxAllErrors 3 [("post_title".data, PyVal.str "T".data)]
        = .error ⟨wpErrorMsg "Error: permission denied".data⟩ := by
  exact ⟨by decide, rfl⟩

end PraisonWP
